import Mathlib

/-!
Verification of the GHGC auth stack assembly script (`src/app.py`).

The script is a linear CDK entry point: it loads a configuration snapshot,
reads git metadata via subprocesses, constructs a stack object, and issues a
fixed sequence of builder calls (cognito groups, a resource server, clients,
an optional OIDC provider) followed by tag application.  We embed the script
as a pure function from its inputs (configuration, git results, and the
scope identifiers returned by resource-server registration) to the list of
builder calls it performs, plus an exception-threading variant for the
error-propagation behaviour and a small module-level interpreter for the
name-shadowing behaviour of the two `AuthStack` bindings.
-/

namespace GhgcAuth

/-- Bucket permission levels, the enumerated values `BucketPermissions.read_only`
and `BucketPermissions.read_write` imported from `infra.stack`.
Modelled from the spec: the enum itself lives in `infra/stack.py`, which is not
part of the provided sources; the spec describes it as an enumerated value
(read-only, read-write) with no behaviour attached. -/
inductive BucketPermissions where
  | read_only : BucketPermissions
  | read_write : BucketPermissions
deriving DecidableEq, Repr

/-- Modelled from the spec: the settings object produced by `config.Config`
(`config.py` is not part of the provided sources).  Fields are exactly the
configuration values the script reads, as an immutable snapshot: owner, stage,
app name, the optional data-manager role ARN, the optional OIDC thumbprint and
provider URL, plus the resource-name prefix the spec lists among the
environment variables (PROJ_PREFIX).  Optional string values use `Option
String`; Python truthiness is `pythonTruthy` below. -/
structure Config where
  owner : String
  stage : String
  app_name : String
  data_managers_role_arn : Option String
  oidc_thumbprint : Option String
  oidc_provider_url : Option String
  proj_prefix : String
deriving DecidableEq, Repr

/-- Truthiness of an optional Python string: `None` and the empty string are
falsy, every other string is truthy. -/
def pythonTruthy : Option String → Bool
  | none => false
  | some s => !s.isEmpty

/-- Result of `git describe --tags`: `Except.error ()` stands for the
`subprocess.CalledProcessError` the script catches. -/
def git_tag : Except Unit String → String
  | .ok s => s
  | .error _ => "no-tag"

/-- The tag mapping built at lines 20-27 of `src/app.py`, in insertion order. -/
def tags (config : Config) (git_sha git_tagv : String) : List (String × String) :=
  [("Project", "ghgc"),
   ("Owner", config.owner),
   ("Client", "nasa-impact"),
   ("Stack", config.stage),
   ("GitCommit", git_sha),
   ("GitTag", git_tagv)]

/-- One builder call issued on the stack object (or a tag application).
Arguments mirror the Python call sites. -/
inductive BuilderCall where
  | add_cognito_group_with_existing_role
      (groupName description role_arn : String) : BuilderCall
  | add_cognito_group
      (groupName description : String)
      (bucketPermissions : List (String × BucketPermissions)) : BuilderCall
  | add_resource_server
      (resourceId : String) (supportedScopes : List (String × String)) : BuilderCall
  | add_service_client (serviceId : String) (scopes : List String) : BuilderCall
  | add_oidc_provider (providerName providerUrl thumbprint : String) : BuilderCall
  | add_programmatic_client (serviceId : String) : BuilderCall
  | tagApplication (key value : String) : BuilderCall
deriving DecidableEq, Repr

/-- The ordered list of builder calls the script performs, lines 55-139 of
`src/app.py`.  `scopeIds server scope` is the scope identifier the external
stack returns from `add_resource_server` for a given resource server and scope
name: the script binds the returned mapping for `ghgc-stac-ingestion-registry`
as `stac_registry_scopes` and reads only its `stac:register` entry; every
other builder call result is discarded. -/
def appCalls (config : Config) (git_sha git_tagv : String)
    (scopeIds : String → String → String) : List BuilderCall :=
  (if pythonTruthy config.data_managers_role_arn then
    [.add_cognito_group_with_existing_role
      "ghgc-data-store-managers"
      "Authenticated users assume read write GHGC data access role"
      (config.data_managers_role_arn.getD "")]
   else []) ++
  [.add_cognito_group
     "ghgc-staging-writers"
     "Users that have read/write-access to the GHGC store and staging datastore"
     [("ghgc-data-store-dev", .read_write),
      ("ghgc-data-store", .read_write),
      ("ghgc-data-store-staging", .read_write)],
   .add_cognito_group
     "ghgc-writers"
     "Users that have read/write-access to the GHGC store"
     [("ghgc-data-store-dev", .read_write),
      ("ghgc-data-store", .read_write)],
   .add_cognito_group
     "ghgc-staging-readers"
     "Users that have read-access to the GHGC store and staging data store"
     [("ghgc-data-store-dev", .read_only),
      ("ghgc-data-store", .read_only),
      ("ghgc-data-store-staging", .read_only)],
   .add_cognito_group
     "ghgc-readers"
     "Users that have read-access to the GHGC store"
     [("ghgc-data-store", .read_only)],
   .add_resource_server
     "ghgc-stac-ingestion-registry"
     [("stac:register", "Create STAC ingestions"),
      ("stac:cancel", "Cancel a STAC ingestion"),
      ("stac:list", "Cancel a STAC ingestion")],
   .add_service_client
     "ghgc-workflows"
     [scopeIds "ghgc-stac-ingestion-registry" "stac:register"]] ++
  (if pythonTruthy config.oidc_thumbprint && pythonTruthy config.oidc_provider_url then
    [.add_oidc_provider
      (String.append "ghgc-oidc-provider-" config.stage)
      (config.oidc_provider_url.getD "")
      (config.oidc_thumbprint.getD "")]
   else []) ++
  [.add_programmatic_client "ghgc-sdk"] ++
  (tags config git_sha git_tagv).map (fun kv => .tagApplication kv.1 kv.2)

/-- Projection: the data-manager group registrations in a trace
(name, description, role ARN). -/
def dmRegistrations (trace : List BuilderCall) : List (String × String × String) :=
  trace.filterMap fun c =>
    match c with
    | .add_cognito_group_with_existing_role n d a => some (n, d, a)
    | _ => none

/-- Projection: the bucket-permission mappings registered for cognito groups of
a given name. -/
def groupPerms (name : String) (trace : List BuilderCall) :
    List (List (String × BucketPermissions)) :=
  trace.filterMap fun c =>
    match c with
    | .add_cognito_group n _ m => if n = name then some m else none
    | _ => none

/-- Projection: the names of the cognito groups registered via
`add_cognito_group`. -/
def cognitoGroupNames (trace : List BuilderCall) : List String :=
  trace.filterMap fun c =>
    match c with
    | .add_cognito_group n _ _ => some n
    | _ => none

/-- Projection: the scope lists passed to service-client registrations of a
given client name. -/
def serviceClientScopes (name : String) (trace : List BuilderCall) :
    List (List String) :=
  trace.filterMap fun c =>
    match c with
    | .add_service_client n s => if n = name then some s else none
    | _ => none

/-- Projection: the OIDC provider registrations in a trace
(provider name, provider URL, thumbprint). -/
def oidcRegistrations (trace : List BuilderCall) : List (String × String × String) :=
  trace.filterMap fun c =>
    match c with
    | .add_oidc_provider n u t => some (n, u, t)
    | _ => none

/-- Projection: the (key, value) pairs of the tag applications in a trace. -/
def tagPairs (trace : List BuilderCall) : List (String × String) :=
  trace.filterMap fun c =>
    match c with
    | .tagApplication k v => some (k, v)
    | _ => none

/-- Projection: the resource-name string of a builder call, when it has one. -/
def callName : BuilderCall → Option String
  | .add_cognito_group_with_existing_role n _ _ => some n
  | .add_cognito_group n _ _ => some n
  | .add_resource_server n _ => some n
  | .add_service_client n _ => some n
  | .add_oidc_provider n _ _ => some n
  | .add_programmatic_client n => some n
  | .tagApplication _ _ => none

/-- Projection: all resource-name strings used by builder calls in a trace. -/
def resourceNames (trace : List BuilderCall) : List String :=
  trace.filterMap callName

/-- Kind of a builder call, used to state the fixed call order of the script. -/
inductive CallKind where
  | dataManagerGroup : CallKind
  | cognitoGroup : CallKind
  | resourceServer : CallKind
  | serviceClient : CallKind
  | oidcProvider : CallKind
  | programmaticClient : CallKind
  | tagApplication : CallKind
deriving DecidableEq, Repr

/-- Kind of each builder call. -/
def kindOf : BuilderCall → CallKind
  | .add_cognito_group_with_existing_role _ _ _ => .dataManagerGroup
  | .add_cognito_group _ _ _ => .cognitoGroup
  | .add_resource_server _ _ => .resourceServer
  | .add_service_client _ _ => .serviceClient
  | .add_oidc_provider _ _ _ => .oidcProvider
  | .add_programmatic_client _ => .programmaticClient
  | .tagApplication _ _ => .tagApplication

/-- Position of each call kind in the fixed order the script follows. -/
def kindRank : CallKind → Nat
  | .dataManagerGroup => 0
  | .cognitoGroup => 1
  | .resourceServer => 2
  | .serviceClient => 3
  | .oidcProvider => 4
  | .programmaticClient => 5
  | .tagApplication => 6

/-! ### Exception-threading model

The script has exactly one handled error path (the `git describe --tags`
subprocess).  Everything else — configuration loading, the `git rev-parse`
subprocess, and any rejection of a builder call by the external toolkit —
propagates and aborts the run.  `runCalls` threads a possibly-failing toolkit
through the call list; `scriptRun` models the whole module run: config load,
then `git rev-parse`, then the guarded `git describe`, then the builder calls. -/

/-- Issue the calls in order against a toolkit that may reject a call
(`toolkit c = some e` means call `c` raises error `e`).  Returns the calls
actually issued (the rejected call included, since it was attempted) and the
propagated error, if any: once a call fails no further call is issued. -/
def runCalls (toolkit : BuilderCall → Option String) :
    List BuilderCall → List BuilderCall × Option String
  | [] => ([], none)
  | c :: cs =>
    match toolkit c with
    | some e => ([c], some e)
    | none =>
      let r := runCalls toolkit cs
      (c :: r.1, r.2)

/-- Inputs of one module run: the result of loading the configuration, of the
`git rev-parse HEAD` subprocess, and of the `git describe --tags` subprocess
(only the last one is guarded by a try/except in the script). -/
structure ScriptInput where
  configResult : Except String Config
  gitShaResult : Except String String
  gitTagResult : Except Unit String
deriving Repr

/-- The whole module run: configuration loading (line 13), then `git
rev-parse` (line 14), then the guarded `git describe` (lines 15-18), then the
builder calls against the toolkit.  A failure of config loading or of `git
rev-parse` propagates before any builder call is issued. -/
def scriptRun (inp : ScriptInput) (scopeIds : String → String → String)
    (toolkit : BuilderCall → Option String) : List BuilderCall × Option String :=
  match inp.configResult with
  | .error e => ([], some e)
  | .ok config =>
    match inp.gitShaResult with
    | .error e => ([], some e)
    | .ok git_sha =>
      runCalls toolkit (appCalls config git_sha (git_tag inp.gitTagResult) scopeIds)

/-! ### Module-level name shadowing

`src/app.py` imports `AuthStack` from `infra.stack` (line 10), instantiates it
(line 30), and only afterwards executes a `class AuthStack(Stack)` statement
(lines 33-52) that rebinds the name to a local class whose constructor applies
the permissions boundary.  We interpret the three relevant top-level
statements over an explicit binding for the name `AuthStack`, recording which
class each instantiation uses and any permissions-boundary application. -/

/-- The two classes the module-level name `AuthStack` can denote: the one
imported from `infra.stack` and the one defined locally at line 33. -/
inductive StackClass where
  | imported : StackClass
  | localDef : StackClass
deriving DecidableEq, Repr

/-- Observable module-level events: instantiating a class bound to the name
`AuthStack`, and applying the permissions boundary (which the local class
constructor does when a boundary policy name is configured). -/
inductive ModuleEvent where
  | instantiate (c : StackClass) : ModuleEvent
  | applyPermissionsBoundary : ModuleEvent
deriving DecidableEq, Repr

/-- Events produced by constructing an instance of a stack class.
Instantiating the local class runs its constructor, which applies the
permissions boundary when a boundary policy name is configured
(`hasBoundaryPolicy`); the imported class constructor produces no
boundary application here. -/
def instantiateEvents (hasBoundaryPolicy : Bool) : StackClass → List ModuleEvent
  | .imported => [.instantiate .imported]
  | .localDef =>
    .instantiate .localDef ::
      (if hasBoundaryPolicy then [.applyPermissionsBoundary] else [])

/-- The three module-level statements that touch the name `AuthStack`, in
source order. -/
inductive TopStmt where
  | importAuthStack : TopStmt
  | instantiateAuthStack : TopStmt
  | defineLocalAuthStack : TopStmt
deriving DecidableEq, Repr

/-- Execute one top-level statement: returns the new binding of the name
`AuthStack` and the events produced.  The import binds the imported class;
the instantiation constructs whatever class is currently bound (producing no
event if the name is unbound, where Python would raise NameError); the local
class statement rebinds the name without instantiating anything. -/
def execTopStmt (hasBoundaryPolicy : Bool) (binding : Option StackClass) :
    TopStmt → Option StackClass × List ModuleEvent
  | .importAuthStack => (some .imported, [])
  | .instantiateAuthStack =>
    (binding,
     match binding with
     | some c => instantiateEvents hasBoundaryPolicy c
     | none => [])
  | .defineLocalAuthStack => (some .localDef, [])

/-- Execute a list of top-level statements from a given binding, accumulating
events in order. -/
def execTopStmts (hasBoundaryPolicy : Bool) (binding : Option StackClass) :
    List TopStmt → List ModuleEvent
  | [] => []
  | s :: ss =>
    let r := execTopStmt hasBoundaryPolicy binding s
    r.2 ++ execTopStmts hasBoundaryPolicy r.1 ss

/-- The statements of `src/app.py` that touch the name `AuthStack`, in source
order: the import (line 10), the instantiation (line 30), the local class
definition (lines 33-52). -/
def moduleStmts : List TopStmt :=
  [.importAuthStack, .instantiateAuthStack, .defineLocalAuthStack]

/-- The module-level events of one run of the script, starting with the name
`AuthStack` unbound. -/
def moduleEvents (hasBoundaryPolicy : Bool) : List ModuleEvent :=
  execTopStmts hasBoundaryPolicy none moduleStmts

/-! ### Sample inputs used by witnesses and counterexamples -/

/-- A sample configuration with both optional features absent. -/
def cfgMinimal : Config :=
  { owner := "owner-a"
    stage := "dev"
    app_name := "ghgc"
    data_managers_role_arn := none
    oidc_thumbprint := none
    oidc_provider_url := none
    proj_prefix := "ghgc" }

/-- A sample configuration with both optional features present. -/
def cfgFull : Config :=
  { owner := "owner-a"
    stage := "dev"
    app_name := "ghgc"
    data_managers_role_arn := some "arn:aws:iam::123456789012:role/data-managers"
    oidc_thumbprint := some "thumb"
    oidc_provider_url := some "https://token.example"
    proj_prefix := "ghgc" }

/-- A sample configuration whose configured resource-name prefix is "veda". -/
def cfgVeda : Config :=
  { owner := "owner-a"
    stage := "dev"
    app_name := "veda"
    data_managers_role_arn := none
    oidc_thumbprint := none
    oidc_provider_url := none
    proj_prefix := "veda" }

/-- A sample scope-identifier oracle. -/
def scopeIdsA : String → String → String :=
  fun server scope => String.append server (String.append "/" scope)

/-- The spec reading of resource-name interpolation: under it, the
writers-group name is the configured prefix followed by "-writers".  Declared
from the words of the spec, to be compared with the constant names the source
actually passes. -/
def specWritersGroupName (projPrefixValue : String) : String :=
  String.append projPrefixValue "-writers"

/-- A toolkit that rejects the resource-server registration and accepts every
other builder call. -/
def toolkitRejectResourceServer : BuilderCall → Option String :=
  fun c =>
    match c with
    | .add_resource_server _ _ => some "rejected"
    | _ => none

/-- Propagation through `runCalls`: if every call of the leading segment is
accepted and call `c` is rejected with error `e`, the run issues exactly the
leading segment followed by `c` and propagates `e`; no call after `c` is
issued. -/
theorem runCalls_append_fail (toolkit : BuilderCall → Option String)
    (l₁ : List BuilderCall) (c : BuilderCall) (l₂ : List BuilderCall) (e : String)
    (h₁ : ∀ c' ∈ l₁, toolkit c' = none) (h₂ : toolkit c = some e) :
    runCalls toolkit (l₁ ++ c :: l₂) = (l₁ ++ [c], some e) := by
  induction l₁ with
  | nil => simp [runCalls, h₂]
  | cons a l ih =>
    have ha : toolkit a = none := h₁ a (by simp)
    have ih' := ih (fun c' hc' => h₁ c' (by simp [hc']))
    simp [runCalls, ha, ih']

/-- The scope identifier returned by resource-server registration for the
scope "stac:register" is exactly the single element of the scopes list passed
to the "ghgc-workflows" service-client registration, and no other computed
result of any builder call is consumed downstream: the trace depends on the
returned scope identifiers only through that one value. -/
theorem scope_threading (config : Config) (git_sha git_tagv : String)
    (scopeIds scopeIds2 : String → String → String)
    (h : scopeIds2 "ghgc-stac-ingestion-registry" "stac:register"
       = scopeIds "ghgc-stac-ingestion-registry" "stac:register") :
    serviceClientScopes "ghgc-workflows" (appCalls config git_sha git_tagv scopeIds)
      = [[scopeIds "ghgc-stac-ingestion-registry" "stac:register"]] ∧
    appCalls config git_sha git_tagv scopeIds2
      = appCalls config git_sha git_tagv scopeIds := by
  constructor
  · cases hdm : pythonTruthy config.data_managers_role_arn <;>
      cases hoidc : pythonTruthy config.oidc_thumbprint
        && pythonTruthy config.oidc_provider_url <;>
      simp [appCalls, hdm, hoidc, serviceClientScopes, tags]
  · simp only [appCalls, h]

/-- Closed instance of the scope-threading theorem at a concrete
configuration and a pair of oracles that agree on the consumed value. -/
theorem scope_threading_witness :
    serviceClientScopes "ghgc-workflows" (appCalls cfgMinimal "sha" "tag" scopeIdsA)
      = [[scopeIdsA "ghgc-stac-ingestion-registry" "stac:register"]] ∧
    appCalls cfgMinimal "sha" "tag"
        (fun server scope =>
          if server = "ghgc-stac-ingestion-registry" ∧ scope = "stac:register" then
            scopeIdsA server scope
          else "other")
      = appCalls cfgMinimal "sha" "tag" scopeIdsA :=
  scope_threading cfgMinimal "sha" "tag" scopeIdsA
    (fun server scope =>
      if server = "ghgc-stac-ingestion-registry" ∧ scope = "stac:register" then
        scopeIdsA server scope
      else "other")
    (by simp)

/-- The claim that resource names are interpolated from the configured prefix
fails on the code: with the prefix configured as "veda", the spec reading
gives the writers-group name "veda-writers", but the script registers the
constant group names with the literal "ghgc" prefix, and "veda-writers" is
the name of no registered resource. -/
theorem prefix_interpolation_counterexample :
    specWritersGroupName "veda" = "veda-writers" ∧
    cognitoGroupNames (appCalls cfgVeda "sha" "tag" scopeIdsA)
      = ["ghgc-staging-writers", "ghgc-writers", "ghgc-staging-readers",
         "ghgc-readers"] ∧
    specWritersGroupName "veda" ∉ resourceNames (appCalls cfgVeda "sha" "tag" scopeIdsA) :=
  ⟨rfl, by decide, by decide⟩

/-- Amended claim: every resource-registration call site passes a constant
name carrying the fixed literal prefix "ghgc", independent of the configured
prefix; in particular the cognito-group names are always the four constants,
with the writers group named "ghgc-writers". -/
theorem ghgc_literal_names (config : Config) (git_sha git_tagv : String)
    (scopeIds : String → String → String) :
    cognitoGroupNames (appCalls config git_sha git_tagv scopeIds)
      = ["ghgc-staging-writers", "ghgc-writers", "ghgc-staging-readers",
         "ghgc-readers"] ∧
    ∀ n ∈ resourceNames (appCalls config git_sha git_tagv scopeIds),
      ∃ rest, n = String.append "ghgc" rest := by
  constructor
  · cases hdm : pythonTruthy config.data_managers_role_arn <;>
      cases hoidc : pythonTruthy config.oidc_thumbprint
        && pythonTruthy config.oidc_provider_url <;>
      simp [appCalls, hdm, hoidc, cognitoGroupNames, tags]
  · intro n hn
    cases hdm : pythonTruthy config.data_managers_role_arn <;>
      cases hoidc : pythonTruthy config.oidc_thumbprint
        && pythonTruthy config.oidc_provider_url <;>
      simp [appCalls, hdm, hoidc, resourceNames, callName, tags] at hn <;>
      casesm* _ ∨ _ <;> subst_vars <;>
      first
        | exact ⟨"-data-store-managers", rfl⟩
        | exact ⟨"-staging-writers", rfl⟩
        | exact ⟨"-writers", rfl⟩
        | exact ⟨"-staging-readers", rfl⟩
        | exact ⟨"-readers", rfl⟩
        | exact ⟨"-stac-ingestion-registry", rfl⟩
        | exact ⟨"-workflows", rfl⟩
        | exact ⟨"-sdk", rfl⟩
        | exact ⟨String.append "-oidc-provider-" config.stage, rfl⟩

/-- Closed instance of the fixed-prefix theorem at a concrete configuration,
applied to the writers-group name. -/
theorem ghgc_literal_names_witness :
    cognitoGroupNames (appCalls cfgMinimal "sha" "tag" scopeIdsA)
      = ["ghgc-staging-writers", "ghgc-writers", "ghgc-staging-readers",
         "ghgc-readers"] ∧
    ∃ rest, "ghgc-writers" = String.append "ghgc" rest :=
  ⟨(ghgc_literal_names cfgMinimal "sha" "tag" scopeIdsA).1,
   (ghgc_literal_names cfgMinimal "sha" "tag" scopeIdsA).2 "ghgc-writers" (by decide)⟩

/-- The tag applications performed by the script are exactly the entries of
the tag mapping, whose keys are exactly Project, Owner, Client, Stack,
GitCommit, GitTag, each applied exactly once (the six keys are pairwise
distinct). -/
theorem tag_keys_exact (config : Config) (git_sha git_tagv : String)
    (scopeIds : String → String → String) :
    tagPairs (appCalls config git_sha git_tagv scopeIds)
      = tags config git_sha git_tagv ∧
    (tagPairs (appCalls config git_sha git_tagv scopeIds)).map Prod.fst
      = ["Project", "Owner", "Client", "Stack", "GitCommit", "GitTag"] ∧
    (["Project", "Owner", "Client", "Stack", "GitCommit", "GitTag"] :
        List String).Nodup := by
  refine ⟨?_, ?_, by decide⟩ <;>
    cases hdm : pythonTruthy config.data_managers_role_arn <;>
      cases hoidc : pythonTruthy config.oidc_thumbprint
        && pythonTruthy config.oidc_provider_url <;>
      simp [appCalls, hdm, hoidc, tagPairs, tags]

/-- When `git describe --tags` raises the handled error, the GitTag value is
the literal sentinel "no-tag": the sentinel is the computed tag string, it is
the value recorded under the GitTag key, it is the value the script applies
under the GitTag key, and every other entry of the tag mapping is unchanged
with respect to any outcome `r` of the subprocess. -/
theorem git_tag_fallback (config : Config) (git_sha : String)
    (scopeIds : String → String → String) (r : Except Unit String) :
    git_tag (Except.error ()) = "no-tag" ∧
    (tags config git_sha (git_tag (Except.error ()))).lookup "GitTag"
      = some "no-tag" ∧
    (tagPairs (appCalls config git_sha (git_tag (Except.error ())) scopeIds)).lookup
        "GitTag" = some "no-tag" ∧
    (tags config git_sha (git_tag (Except.error ()))).filter
        (fun kv => !(kv.1 == "GitTag"))
      = (tags config git_sha (git_tag r)).filter (fun kv => !(kv.1 == "GitTag")) := by
  refine ⟨rfl, rfl, ?_, rfl⟩
  cases hdm : pythonTruthy config.data_managers_role_arn <;>
    cases hoidc : pythonTruthy config.oidc_thumbprint
      && pythonTruthy config.oidc_provider_url <;>
    simp [appCalls, hdm, hoidc, tagPairs, tags, git_tag, List.lookup]

/-- The group-to-bucket permission mappings are exactly as declared: the
"ghgc-staging-writers" group maps exactly the three distinct bucket names to
read-write permission, and the "ghgc-readers" group maps exactly the one
bucket name to read-only permission. -/
theorem group_bucket_permissions (config : Config) (git_sha git_tagv : String)
    (scopeIds : String → String → String) :
    groupPerms "ghgc-staging-writers" (appCalls config git_sha git_tagv scopeIds)
      = [[("ghgc-data-store-dev", BucketPermissions.read_write),
          ("ghgc-data-store", BucketPermissions.read_write),
          ("ghgc-data-store-staging", BucketPermissions.read_write)]] ∧
    groupPerms "ghgc-readers" (appCalls config git_sha git_tagv scopeIds)
      = [[("ghgc-data-store", BucketPermissions.read_only)]] ∧
    (["ghgc-data-store-dev", "ghgc-data-store", "ghgc-data-store-staging"] :
        List String).Nodup := by
  refine ⟨?_, ?_, by decide⟩ <;>
    cases hdm : pythonTruthy config.data_managers_role_arn <;>
      cases hoidc : pythonTruthy config.oidc_thumbprint
        && pythonTruthy config.oidc_provider_url <;>
      simp [appCalls, hdm, hoidc, groupPerms, tags]

/-- Data-manager group gating: when the configured role ARN is falsy (absent
or empty) no data-manager group registration occurs, and when it is present
and truthy exactly one registration occurs, carrying that ARN. -/
theorem data_manager_gating (config : Config) (git_sha git_tagv : String)
    (scopeIds : String → String → String) :
    (pythonTruthy config.data_managers_role_arn = false →
      dmRegistrations (appCalls config git_sha git_tagv scopeIds) = []) ∧
    (∀ arn, config.data_managers_role_arn = some arn →
      pythonTruthy config.data_managers_role_arn = true →
      dmRegistrations (appCalls config git_sha git_tagv scopeIds)
        = [("ghgc-data-store-managers",
            "Authenticated users assume read write GHGC data access role", arn)]) := by
  constructor
  · intro hdm
    cases hoidc : pythonTruthy config.oidc_thumbprint
        && pythonTruthy config.oidc_provider_url <;>
      simp [appCalls, hdm, hoidc, dmRegistrations, tags]
  · intro arn harn hdm
    have hdm' : pythonTruthy (some arn) = true := harn ▸ hdm
    cases hoidc : pythonTruthy config.oidc_thumbprint
        && pythonTruthy config.oidc_provider_url <;>
      simp [appCalls, hdm, hdm', hoidc, harn, dmRegistrations, tags]

/-- Closed instance of the data-manager gating theorem: no registration at a
configuration without the role ARN, exactly one registration carrying the ARN
at a configuration with it. -/
theorem data_manager_gating_witness :
    dmRegistrations (appCalls cfgMinimal "sha" "tag" scopeIdsA) = [] ∧
    dmRegistrations (appCalls cfgFull "sha" "tag" scopeIdsA)
      = [("ghgc-data-store-managers",
          "Authenticated users assume read write GHGC data access role",
          "arn:aws:iam::123456789012:role/data-managers")] :=
  ⟨(data_manager_gating cfgMinimal "sha" "tag" scopeIdsA).1 rfl,
   (data_manager_gating cfgFull "sha" "tag" scopeIdsA).2
     "arn:aws:iam::123456789012:role/data-managers" rfl rfl⟩

/-- OIDC provider gating: a provider registration occurs iff both the OIDC
thumbprint and the provider URL are truthy; at most one registration occurs;
and any registration performed names the provider
"ghgc-oidc-provider-" followed by the configured stage. -/
theorem oidc_provider_gating (config : Config) (git_sha git_tagv : String)
    (scopeIds : String → String → String) :
    (oidcRegistrations (appCalls config git_sha git_tagv scopeIds) ≠ [] ↔
      pythonTruthy config.oidc_thumbprint = true ∧
      pythonTruthy config.oidc_provider_url = true) ∧
    (oidcRegistrations (appCalls config git_sha git_tagv scopeIds)).length ≤ 1 ∧
    (∀ p ∈ oidcRegistrations (appCalls config git_sha git_tagv scopeIds),
      p = (String.append "ghgc-oidc-provider-" config.stage,
           config.oidc_provider_url.getD "", config.oidc_thumbprint.getD "")) := by
  refine ⟨?_, ?_, ?_⟩ <;>
    cases hdm : pythonTruthy config.data_managers_role_arn <;>
      cases ht : pythonTruthy config.oidc_thumbprint <;>
        cases hu : pythonTruthy config.oidc_provider_url <;>
        simp [appCalls, hdm, ht, hu, oidcRegistrations, tags]

/-- Closed instance of the OIDC gating theorem at a configuration with both
OIDC values present: a registration occurs and it carries the stage-derived
provider name. -/
theorem oidc_provider_gating_witness :
    oidcRegistrations (appCalls cfgFull "sha" "tag" scopeIdsA) ≠ [] ∧
    ("ghgc-oidc-provider-dev", "https://token.example", "thumb")
      = (String.append "ghgc-oidc-provider-" cfgFull.stage,
         cfgFull.oidc_provider_url.getD "", cfgFull.oidc_thumbprint.getD "") :=
  ⟨(oidc_provider_gating cfgFull "sha" "tag" scopeIdsA).1.mpr ⟨rfl, rfl⟩,
   (oidc_provider_gating cfgFull "sha" "tag" scopeIdsA).2.2
     ("ghgc-oidc-provider-dev", "https://token.example", "thumb") (by decide)⟩

/-- The builder calls are issued in the fixed order: the optional
data-manager group, then the four cognito groups, then the resource server,
then the service client, then the optional OIDC provider, then the
programmatic client, then the six tag applications; equivalently, the rank of
the call kinds never decreases along the trace. -/
theorem builder_call_order (config : Config) (git_sha git_tagv : String)
    (scopeIds : String → String → String) :
    (appCalls config git_sha git_tagv scopeIds).map kindOf
      = (if pythonTruthy config.data_managers_role_arn then
          [CallKind.dataManagerGroup] else []) ++
        [CallKind.cognitoGroup, CallKind.cognitoGroup, CallKind.cognitoGroup,
         CallKind.cognitoGroup, CallKind.resourceServer, CallKind.serviceClient] ++
        (if pythonTruthy config.oidc_thumbprint
            && pythonTruthy config.oidc_provider_url then
          [CallKind.oidcProvider] else []) ++
        [CallKind.programmaticClient] ++
        List.replicate 6 CallKind.tagApplication ∧
    List.Pairwise (fun a b => kindRank (kindOf a) ≤ kindRank (kindOf b))
      (appCalls config git_sha git_tagv scopeIds) := by
  constructor <;>
    cases hdm : pythonTruthy config.data_managers_role_arn <;>
      cases hoidc : pythonTruthy config.oidc_thumbprint
        && pythonTruthy config.oidc_provider_url <;>
      simp [appCalls, hdm, hoidc, tags, kindOf, kindRank, List.replicate,
            List.pairwise_cons]

/-- Unhandled failures propagate with no recovery: a configuration-loading
failure or a failure of the `git rev-parse` subprocess aborts the run with the
underlying error before any builder call is issued, and a builder call
rejected by the external toolkit propagates its error with no further builder
call issued after it. -/
theorem unhandled_error_propagation :
    (∀ (e : String) (gitShaR : Except String String) (gitTagR : Except Unit String)
        (scopeIds : String → String → String) (toolkit : BuilderCall → Option String),
      scriptRun ⟨Except.error e, gitShaR, gitTagR⟩ scopeIds toolkit = ([], some e)) ∧
    (∀ (config : Config) (e : String) (gitTagR : Except Unit String)
        (scopeIds : String → String → String) (toolkit : BuilderCall → Option String),
      scriptRun ⟨Except.ok config, Except.error e, gitTagR⟩ scopeIds toolkit
        = ([], some e)) ∧
    (∀ (config : Config) (git_sha : String) (gitTagR : Except Unit String)
        (scopeIds : String → String → String) (toolkit : BuilderCall → Option String)
        (l₁ : List BuilderCall) (c : BuilderCall) (l₂ : List BuilderCall) (e : String),
      appCalls config git_sha (git_tag gitTagR) scopeIds = l₁ ++ c :: l₂ →
      (∀ c' ∈ l₁, toolkit c' = none) → toolkit c = some e →
      scriptRun ⟨Except.ok config, Except.ok git_sha, gitTagR⟩ scopeIds toolkit
        = (l₁ ++ [c], some e)) := by
  refine ⟨fun e _ _ _ _ => rfl, fun _ e _ _ _ => rfl, ?_⟩
  intro config git_sha gitTagR scopeIds toolkit l₁ c l₂ e happ h₁ h₂
  show runCalls toolkit (appCalls config git_sha (git_tag gitTagR) scopeIds)
    = (l₁ ++ [c], some e)
  rw [happ]
  exact runCalls_append_fail toolkit l₁ c l₂ e h₁ h₂

/-- Closed instance of the error-propagation theorem: a configuration failure
and a git-sha failure abort before any builder call, and a toolkit rejection
of the resource-server registration stops the run right there — the four
group registrations issued before it, nothing after it. -/
theorem unhandled_error_propagation_witness :
    scriptRun ⟨Except.error "missing config", Except.ok "sha", Except.ok "tag"⟩
        scopeIdsA toolkitRejectResourceServer = ([], some "missing config") ∧
    scriptRun ⟨Except.ok cfgMinimal, Except.error "git failure", Except.ok "tag"⟩
        scopeIdsA toolkitRejectResourceServer = ([], some "git failure") ∧
    scriptRun ⟨Except.ok cfgMinimal, Except.ok "sha", Except.ok "tag"⟩
        scopeIdsA toolkitRejectResourceServer
      = ([.add_cognito_group
            "ghgc-staging-writers"
            "Users that have read/write-access to the GHGC store and staging datastore"
            [("ghgc-data-store-dev", .read_write),
             ("ghgc-data-store", .read_write),
             ("ghgc-data-store-staging", .read_write)],
          .add_cognito_group
            "ghgc-writers"
            "Users that have read/write-access to the GHGC store"
            [("ghgc-data-store-dev", .read_write),
             ("ghgc-data-store", .read_write)],
          .add_cognito_group
            "ghgc-staging-readers"
            "Users that have read-access to the GHGC store and staging data store"
            [("ghgc-data-store-dev", .read_only),
             ("ghgc-data-store", .read_only),
             ("ghgc-data-store-staging", .read_only)],
          .add_cognito_group
            "ghgc-readers"
            "Users that have read-access to the GHGC store"
            [("ghgc-data-store", .read_only)],
          .add_resource_server
            "ghgc-stac-ingestion-registry"
            [("stac:register", "Create STAC ingestions"),
             ("stac:cancel", "Cancel a STAC ingestion"),
             ("stac:list", "Cancel a STAC ingestion")]],
         some "rejected") :=
  ⟨unhandled_error_propagation.1 "missing config" (Except.ok "sha") (Except.ok "tag")
     scopeIdsA toolkitRejectResourceServer,
   unhandled_error_propagation.2.1 cfgMinimal "git failure" (Except.ok "tag")
     scopeIdsA toolkitRejectResourceServer,
   unhandled_error_propagation.2.2 cfgMinimal "sha" (Except.ok "tag")
     scopeIdsA toolkitRejectResourceServer
     [.add_cognito_group
        "ghgc-staging-writers"
        "Users that have read/write-access to the GHGC store and staging datastore"
        [("ghgc-data-store-dev", .read_write),
         ("ghgc-data-store", .read_write),
         ("ghgc-data-store-staging", .read_write)],
      .add_cognito_group
        "ghgc-writers"
        "Users that have read/write-access to the GHGC store"
        [("ghgc-data-store-dev", .read_write),
         ("ghgc-data-store", .read_write)],
      .add_cognito_group
        "ghgc-staging-readers"
        "Users that have read-access to the GHGC store and staging data store"
        [("ghgc-data-store-dev", .read_only),
         ("ghgc-data-store", .read_only),
         ("ghgc-data-store-staging", .read_only)],
      .add_cognito_group
        "ghgc-readers"
        "Users that have read-access to the GHGC store"
        [("ghgc-data-store", .read_only)]]
     (.add_resource_server
        "ghgc-stac-ingestion-registry"
        [("stac:register", "Create STAC ingestions"),
         ("stac:cancel", "Cancel a STAC ingestion"),
         ("stac:list", "Cancel a STAC ingestion")])
     [.add_service_client
        "ghgc-workflows"
        [scopeIdsA "ghgc-stac-ingestion-registry" "stac:register"],
      .add_programmatic_client "ghgc-sdk",
      .tagApplication "Project" "ghgc",
      .tagApplication "Owner" "owner-a",
      .tagApplication "Client" "nasa-impact",
      .tagApplication "Stack" "dev",
      .tagApplication "GitCommit" "sha",
      .tagApplication "GitTag" "tag"]
     "rejected" rfl (by decide) rfl⟩

/-- The stack instance that receives the builder calls is constructed while
the name `AuthStack` is still bound to the imported class; the locally
defined class is never instantiated, so its permissions-boundary application
never executes, whether or not a boundary policy name is configured. -/
theorem authstack_shadowing (hasBoundaryPolicy : Bool) :
    moduleEvents hasBoundaryPolicy
      = [ModuleEvent.instantiate StackClass.imported] ∧
    ModuleEvent.instantiate StackClass.localDef ∉ moduleEvents hasBoundaryPolicy ∧
    ModuleEvent.applyPermissionsBoundary ∉ moduleEvents hasBoundaryPolicy := by
  cases hasBoundaryPolicy <;> exact ⟨rfl, by decide, by decide⟩

end GhgcAuth
